import Mathlib

/-!
Shallow embedding of `src/input-soapysdr.c` (the SoapySDR input backend):
sample-format negotiation (`soapysdr_choose_sample_format`), device
initialization (`soapysdr_input_init`) and the capture worker
(`soapysdr_input_thread`), together with proofs about them.

External collaborators (the SoapySDR device API, the helpers from
`input-helpers.h` / `input-common.h`, the libc string parsers) are not part
of the embedded source; they are modelled as abstract parameters
(`FormatEnv`, `DeviceBehavior`) so that every theorem quantifies over all
possible behaviors of those collaborators.  Device doubles are modelled as
rationals (the code only compares them and passes them through), and the
side effects of each device call are recorded in an explicit event trace.
-/

/-- Modelled from the spec: the "logical sample kind", the canonical
enumerated set of encodings the pipeline understands (`sample_format` from
`input-common.h`, which is not part of the embedded sources).  `SFMT_UNDEF`
is the distinguished "unknown/failure" value tested by the code. -/
inductive sample_format where
  | SFMT_UNDEF
  | SFMT_CU8
  | SFMT_CS16
  | SFMT_CF32
deriving DecidableEq, Repr

open sample_format

/-- Modelled from the spec: the pure helper functions the code calls but
whose bodies live outside the embedded sources — the wire-format-string to
logical-kind mapping (`sample_format_from_string`), the byte size the
SoapySDR library computes for a wire-format identifier
(`SoapySDR_formatToSize`), the expected byte size of a logical kind
(`get_sample_size`) and the fixed full-scale constant of a logical kind
(`get_sample_full_scale_value`). -/
structure FormatEnv where
  sample_format_from_string : String → sample_format
  formatToSize : String → ℕ
  get_sample_size : sample_format → ℕ
  get_sample_full_scale_value : sample_format → ℚ

/-- The negotiation-relevant behavior of an open SoapySDR device:
its native RX stream format and reported full scale
(`SoapySDRDevice_getNativeStreamFormat`), and its supported format list
(`SoapySDRDevice_getStreamFormats`; `none` models a NULL return). -/
structure SoapyDevice where
  nativeFormat : String
  nativeFullScale : ℚ
  streamFormats : Option (List String)

/-- `struct sample_format_search_result` from the source. `soapy_sfmt`
is a `char *`, NULL at initialization, hence an `Option String`. -/
structure sample_format_search_result where
  sfmt : sample_format
  soapy_sfmt : Option String
  full_scale : ℚ
  sample_size : ℕ
deriving DecidableEq, Repr

/-- Device calls made during initialization, in program order. -/
inductive Event where
  | makeDevice
  | setSampleRate (rate : ℚ)
  | setFrequency (freq : ℚ)
  | setFrequencyCorrection (ppm : ℚ)
  | setDCOffsetMode
  | setGainElement (nm v : String)
  | getGainElement (nm : String)
  | setGain (g : ℚ)
  | setGainMode
  | setAntenna (nm : String)
  | getAntenna
  | writeSetting (nm v : String)
  | readSetting (nm : String)
  | getNativeStreamFormat
  | getStreamFormats
  | setupStream
deriving DecidableEq, Repr

/-- The `= {0}` initializer of `result` followed by `result.sfmt = SFMT_UNDEF`
at the top of `soapysdr_choose_sample_format`. -/
def initial_search_result : sample_format_search_result :=
  { sfmt := SFMT_UNDEF, soapy_sfmt := none, full_scale := 0, sample_size := 0 }

/-- The native-format test of `soapysdr_choose_sample_format` (lines 56–63):
the short-circuit `&&` chain assigns `result.sfmt`, `result.sample_size` and
`result.full_scale` as it goes, so a failed conjunct still leaves the earlier
assignments in place.  Returns the (possibly partially assigned) result and
whether the native format was accepted. -/
def native_format_check (env : FormatEnv) (sdr : SoapyDevice) :
    sample_format_search_result × Bool :=
  let fmt : String := sdr.nativeFormat
  let r1 : sample_format_search_result :=
    { initial_search_result with sfmt := env.sample_format_from_string fmt }
  if r1.sfmt ≠ SFMT_UNDEF then
    let r2 : sample_format_search_result := { r1 with sample_size := env.formatToSize fmt }
    if r2.sample_size = env.get_sample_size r2.sfmt then
      let r3 : sample_format_search_result := { r2 with full_scale := sdr.nativeFullScale }
      if 0 < r3.full_scale then
        ({ r3 with soapy_sfmt := some fmt }, true)
      else (r3, false)
    else (r2, false)
  else (r1, false)

/-- The fallback scan of `soapysdr_choose_sample_format` (lines 72–81): walk
the device's format list; the `if` condition again assigns `result.sfmt` and
`result.sample_size` as side effects of the `&&` chain, so when the loop
falls off the end the last assignments remain in the returned result. -/
def fallback_scan (env : FormatEnv) (formats : List String)
    (r : sample_format_search_result) : sample_format_search_result :=
  match formats with
  | [] => r
  | f :: rest =>
    let r1 : sample_format_search_result := { r with sfmt := env.sample_format_from_string f }
    if r1.sfmt ≠ SFMT_UNDEF then
      let r2 : sample_format_search_result := { r1 with sample_size := env.formatToSize f }
      if r2.sample_size = env.get_sample_size r2.sfmt then
        { r2 with full_scale := env.get_sample_full_scale_value r2.sfmt,
                  soapy_sfmt := some f }
      else fallback_scan env rest r2
    else fallback_scan env rest r1

/-- `soapysdr_choose_sample_format` (lines 49–83), with the trace of device
queries it makes.  The native path returns immediately; otherwise the format
list is queried, a NULL or empty list resets `result.sfmt` to `SFMT_UNDEF`
(lines 67–71), and otherwise the fallback scan's result is returned as is. -/
def soapysdr_choose_sample_format (env : FormatEnv) (sdr : SoapyDevice) :
    sample_format_search_result × List Event :=
  let (r, accepted) := native_format_check env sdr
  if accepted then (r, [Event.getNativeStreamFormat])
  else
    match sdr.streamFormats with
    | none => ({ r with sfmt := SFMT_UNDEF },
               [Event.getNativeStreamFormat, Event.getStreamFormats])
    | some [] => ({ r with sfmt := SFMT_UNDEF },
               [Event.getNativeStreamFormat, Event.getStreamFormats])
    | some (f :: rest) => (fallback_scan env (f :: rest) r,
               [Event.getNativeStreamFormat, Event.getStreamFormats])

/-- The three acceptance conditions of the native path, as one proposition:
the mapping succeeds, the reported byte size equals the expected byte size
of the mapped kind, and the reported full scale is strictly positive. -/
def native_format_ok (env : FormatEnv) (sdr : SoapyDevice) : Prop :=
  env.sample_format_from_string sdr.nativeFormat ≠ SFMT_UNDEF ∧
  env.formatToSize sdr.nativeFormat =
    env.get_sample_size (env.sample_format_from_string sdr.nativeFormat) ∧
  0 < sdr.nativeFullScale

instance (env : FormatEnv) (sdr : SoapyDevice) :
    Decidable (native_format_ok env sdr) := by
  unfold native_format_ok; infer_instance

/-- The predicate a fallback-list entry must satisfy to be selected:
its identifier maps to a known logical kind and its reported byte size
equals the expected size of that kind. -/
def fallback_entry_ok (env : FormatEnv) (f : String) : Bool :=
  env.sample_format_from_string f ≠ SFMT_UNDEF &&
  env.formatToSize f = env.get_sample_size (env.sample_format_from_string f)

lemma native_format_check_accepted_iff (env : FormatEnv) (sdr : SoapyDevice) :
    (native_format_check env sdr).2 = true ↔ native_format_ok env sdr := by
  unfold native_format_check native_format_ok
  by_cases h1 : env.sample_format_from_string sdr.nativeFormat = SFMT_UNDEF
  · simp [h1]
  · by_cases h2 : env.formatToSize sdr.nativeFormat =
        env.get_sample_size (env.sample_format_from_string sdr.nativeFormat)
    · by_cases h3 : (0 : ℚ) < sdr.nativeFullScale
      · simp [h1, h2, h3]
      · simp [h1, h2, h3]
    · simp [h1, h2]

lemma native_format_check_accepted_result (env : FormatEnv) (sdr : SoapyDevice)
    (h : native_format_ok env sdr) :
    native_format_check env sdr =
      ({ sfmt := env.sample_format_from_string sdr.nativeFormat,
         soapy_sfmt := some sdr.nativeFormat,
         full_scale := sdr.nativeFullScale,
         sample_size := env.formatToSize sdr.nativeFormat }, true) := by
  obtain ⟨h1, h2, h3⟩ := h
  unfold native_format_check
  simp [initial_search_result, h1, h2, h3]

lemma native_format_check_rejected (env : FormatEnv) (sdr : SoapyDevice)
    (h : ¬ native_format_ok env sdr) :
    (native_format_check env sdr).2 = false := by
  have := native_format_check_accepted_iff env sdr
  rcases hb : (native_format_check env sdr).2 with _ | _
  · rfl
  · exact absurd (this.mp hb) h

/-- When some entry of the list satisfies the selection predicate, the
fallback scan returns the first such entry's fully assigned result,
independently of the incoming partially assigned result. -/
lemma fallback_scan_of_find (env : FormatEnv) (formats : List String)
    (f : String) (hf : formats.find? (fallback_entry_ok env) = some f)
    (r : sample_format_search_result) :
    fallback_scan env formats r =
      { sfmt := env.sample_format_from_string f, soapy_sfmt := some f,
        full_scale := env.get_sample_full_scale_value (env.sample_format_from_string f),
        sample_size := env.formatToSize f } := by
  induction formats generalizing r with
  | nil => simp at hf
  | cons f0 rest ih =>
    by_cases hp : fallback_entry_ok env f0 = true
    · rw [List.find?_cons_of_pos _ hp] at hf
      injection hf with hf
      subst hf
      have hmap : env.sample_format_from_string f0 ≠ SFMT_UNDEF := by
        have := hp
        unfold fallback_entry_ok at this
        simp only [Bool.and_eq_true, decide_eq_true_eq] at this
        exact this.1
      have hsz : env.formatToSize f0 =
          env.get_sample_size (env.sample_format_from_string f0) := by
        have := hp
        unfold fallback_entry_ok at this
        simp only [Bool.and_eq_true, decide_eq_true_eq] at this
        exact this.2
      unfold fallback_scan
      simp [hmap, hsz]
    · rw [List.find?_cons_of_neg _ hp] at hf
      have hnot : ¬ (env.sample_format_from_string f0 ≠ SFMT_UNDEF ∧
          env.formatToSize f0 =
            env.get_sample_size (env.sample_format_from_string f0)) := by
        intro hc
        apply hp
        unfold fallback_entry_ok
        simp only [Bool.and_eq_true, decide_eq_true_eq]
        exact hc
      unfold fallback_scan
      by_cases h1 : env.sample_format_from_string f0 = SFMT_UNDEF
      · simp only [h1, ne_eq, not_true_eq_false, if_false]
        exact ih hf _
      · have h2 : env.formatToSize f0 ≠
            env.get_sample_size (env.sample_format_from_string f0) := by
          intro hc; exact hnot ⟨h1, hc⟩
        simp only [ne_eq, h1, not_false_eq_true, if_true, h2, if_false]
        exact ih hf _

/-- C1: if the native format maps to a known kind, its reported byte size
equals the expected size of that kind, and the reported full scale is
strictly positive, then `soapysdr_choose_sample_format` returns the native
format with the device-reported full scale and queries only the native
format (the fallback list is never read); if any of the three conditions
fails, the native immediate path is not taken and the fallback format list
is queried. -/
theorem C1_native_format_acceptance (env : FormatEnv) (sdr : SoapyDevice) :
    (native_format_ok env sdr →
      soapysdr_choose_sample_format env sdr =
        ({ sfmt := env.sample_format_from_string sdr.nativeFormat,
           soapy_sfmt := some sdr.nativeFormat,
           full_scale := sdr.nativeFullScale,
           sample_size := env.formatToSize sdr.nativeFormat },
         [Event.getNativeStreamFormat])) ∧
    (¬ native_format_ok env sdr →
      Event.getStreamFormats ∈ (soapysdr_choose_sample_format env sdr).2) := by
  constructor
  · intro h
    unfold soapysdr_choose_sample_format
    rw [native_format_check_accepted_result env sdr h]
    simp
  · intro h
    have hrej := native_format_check_rejected env sdr h
    unfold soapysdr_choose_sample_format
    rcases hnc : native_format_check env sdr with ⟨r, acc⟩
    rw [hnc] at hrej
    simp only at hrej
    subst hrej
    rcases sdr.streamFormats with _ | ⟨_ | ⟨f0, rest⟩⟩ <;> simp

/-- C2: when the native format is not accepted and some entry of the
device's fallback list satisfies the mapping-and-size predicate, the chosen
format is the first such entry, in device order, and its full scale is the
fixed constant of the mapped kind (`get_sample_full_scale_value`), not a
device-reported value. -/
theorem C2_fallback_first_match (env : FormatEnv) (sdr : SoapyDevice)
    (fs : List String) (f : String)
    (hna : ¬ native_format_ok env sdr)
    (hfs : sdr.streamFormats = some fs)
    (hf : fs.find? (fallback_entry_ok env) = some f) :
    (soapysdr_choose_sample_format env sdr).1 =
      { sfmt := env.sample_format_from_string f, soapy_sfmt := some f,
        full_scale := env.get_sample_full_scale_value (env.sample_format_from_string f),
        sample_size := env.formatToSize f } := by
  have hrej := native_format_check_rejected env sdr hna
  unfold soapysdr_choose_sample_format
  rcases hnc : native_format_check env sdr with ⟨r, acc⟩
  rw [hnc] at hrej
  simp only at hrej
  subst hrej
  rcases fs with _ | ⟨f0, rest⟩
  · simp at hf
  · simp only [hfs]
    exact fallback_scan_of_find env (f0 :: rest) f hf r

/-- A concrete helper environment for evaluating the theorems: it
recognizes the wire formats "CS16" and "CF32" with their usual byte sizes
and full-scale constants. -/
def test_env : FormatEnv where
  sample_format_from_string := fun s =>
    if s = "CS16" then SFMT_CS16 else if s = "CF32" then SFMT_CF32 else SFMT_UNDEF
  formatToSize := fun s => if s = "CS16" then 4 else if s = "CF32" then 8 else 0
  get_sample_size := fun k =>
    match k with
    | SFMT_UNDEF => 0
    | SFMT_CU8 => 2
    | SFMT_CS16 => 4
    | SFMT_CF32 => 8
  get_sample_full_scale_value := fun k =>
    match k with
    | SFMT_CS16 => 32768
    | _ => 1

/-- A device whose native format satisfies all three acceptance conditions. -/
def native_ok_device : SoapyDevice :=
  { nativeFormat := "CS16", nativeFullScale := 32768, streamFormats := some ["CF32"] }

/-- A device whose native format is unknown to the mapping, with a fallback
list whose first usable entry is its second element. -/
def native_bad_device : SoapyDevice :=
  { nativeFormat := "CS12", nativeFullScale := 2048,
    streamFormats := some ["CU32", "CS16", "CF32"] }

theorem C1_native_format_acceptance_witness :
    native_format_ok test_env native_ok_device ∧
    soapysdr_choose_sample_format test_env native_ok_device =
      ({ sfmt := SFMT_CS16, soapy_sfmt := some "CS16",
         full_scale := 32768, sample_size := 4 },
       [Event.getNativeStreamFormat]) := by
  refine ⟨by decide, ?_⟩
  rw [(C1_native_format_acceptance test_env native_ok_device).1 (by decide)]
  decide

theorem C2_fallback_first_match_witness :
    (¬ native_format_ok test_env native_bad_device) ∧
    (soapysdr_choose_sample_format test_env native_bad_device).1 =
      { sfmt := SFMT_CS16, soapy_sfmt := some "CS16",
        full_scale := 32768, sample_size := 4 } := by
  refine ⟨by decide, ?_⟩
  rw [C2_fallback_first_match test_env native_bad_device ["CU32", "CS16", "CF32"]
        "CS16" (by decide) rfl (by decide)]
  decide

/-- An environment in which a recognized wire format's reported byte size
disagrees with the expected byte size of its logical kind (the byte-size
cross-check the negotiator is specified to guard with). -/
def size_mismatch_env : FormatEnv where
  sample_format_from_string := fun s => if s = "CS16" then SFMT_CS16 else SFMT_UNDEF
  formatToSize := fun s => if s = "CS16" then 2 else 0
  get_sample_size := fun k =>
    match k with
    | SFMT_UNDEF => 0
    | SFMT_CU8 => 2
    | SFMT_CS16 => 4
    | SFMT_CF32 => 8
  get_sample_full_scale_value := fun _ => 1

/-- A device on which no fallback entry satisfies the predicate but the
last scanned entry maps to a known kind (with mismatched size). -/
def stale_scan_device : SoapyDevice :=
  { nativeFormat := "X", nativeFullScale := 1, streamFormats := some ["CS16"] }

/-- C8 (code bug): on a device where no fallback entry satisfies the
mapping-and-size predicate but the last scanned entry maps to a known kind,
the scan loop falls off the end with that entry's kind still stored in
`result.sfmt` (a side effect of the `&&` chain), so negotiation does not
return the undefined-format failure result: the caller's `SFMT_UNDEF` test
passes and initialization proceeds with a NULL wire-format identifier and a
zero full scale instead of failing with the distinct
"could not find a suitable sample format" error. -/
theorem C8_stale_scan_result :
    fallback_entry_ok size_mismatch_env "CS16" = false ∧
    ¬ native_format_ok size_mismatch_env stale_scan_device ∧
    (soapysdr_choose_sample_format size_mismatch_env stale_scan_device).1 =
      { sfmt := SFMT_CS16, soapy_sfmt := none, full_scale := 0, sample_size := 2 } := by
  decide

/-- Events of the capture worker `soapysdr_input_thread`, in program order:
buffer allocation, stream activation, the settle delay, the per-iteration
read / error-log / convert / produce actions, the write of the global
cancellation flag, and the teardown actions. -/
inductive TEvent where
  | allocInbuf
  | allocOutbuf
  | activateStream
  | setDoExit
  | settle
  | readStream
  | logReadError (code : ℤ)
  | convert (nbytes : ℕ)
  | produce (nsamples : ℕ)
  | deactivateStream
  | closeStream
  | unmakeDevice
  | shutdownChannel
  | markNotRunning
  | freeInbuf
  | freeOutbuf
deriving DecidableEq, Repr

/-- The `while(do_exit == 0)` loop body of `soapysdr_input_thread`
(lines 231–243).  `reads` lists the results of the successive
`SoapySDRDevice_readStream` calls performed while the cancellation flag is
still clear; the flag is observed set once the list is exhausted.  A
negative result is logged and the loop continues; a result of `N ≥ 0`
samples is converted (`N * bytes_per_sample` bytes) and `N` samples are
pushed downstream. -/
def capture_loop (bps : ℕ) (reads : List ℤ) : List TEvent :=
  match reads with
  | [] => []
  | r :: rest =>
    if r < 0 then
      TEvent.readStream :: TEvent.logReadError r :: capture_loop bps rest
    else
      TEvent.readStream :: TEvent.convert (r.toNat * bps) ::
        TEvent.produce r.toNat :: capture_loop bps rest

/-- The teardown code after the `shutdown:` label (lines 244–252), in
source order. -/
def shutdown_sequence : List TEvent :=
  [TEvent.deactivateStream, TEvent.closeStream, TEvent.unmakeDevice,
   TEvent.shutdownChannel, TEvent.markNotRunning, TEvent.freeInbuf,
   TEvent.freeOutbuf]

/-- `soapysdr_input_thread` (lines 215–254): allocate the two capture
buffers, activate the stream; on activation failure set the global
cancellation flag (`do_exit = 1`) and jump to the shutdown label; on
success sleep briefly, run the capture loop, and fall through to the same
shutdown label. -/
def soapysdr_input_thread (bps : ℕ) (activate_ok : Bool) (reads : List ℤ) :
    List TEvent :=
  TEvent.allocInbuf :: TEvent.allocOutbuf :: TEvent.activateStream ::
    (if activate_ok then
      TEvent.settle :: (capture_loop bps reads ++ shutdown_sequence)
    else
      TEvent.setDoExit :: shutdown_sequence)

lemma capture_loop_append (bps : ℕ) (xs ys : List ℤ) :
    capture_loop bps (xs ++ ys) = capture_loop bps xs ++ capture_loop bps ys := by
  induction xs with
  | nil => simp [capture_loop]
  | cons x rest ih =>
    by_cases hx : x < 0
    · simp [capture_loop, hx, ih]
    · simp [capture_loop, hx, ih]

lemma capture_loop_disjoint_shutdown (bps : ℕ) (reads : List ℤ) :
    ∀ e ∈ capture_loop bps reads, e ∉ shutdown_sequence := by
  induction reads with
  | nil => simp [capture_loop]
  | cons r rest ih =>
    intro e he
    by_cases hr : r < 0
    · simp only [capture_loop, hr, if_true, List.mem_cons] at he
      rcases he with rfl | rfl | he
      · simp [shutdown_sequence]
      · simp [shutdown_sequence]
      · exact ih e he
    · simp only [capture_loop, hr, if_false, List.mem_cons] at he
      rcases he with rfl | rfl | rfl | he
      · simp [shutdown_sequence]
      · simp [shutdown_sequence]
      · simp [shutdown_sequence]
      · exact ih e he

/-- C3: on every exit path of the capture worker, the trace ends with the
teardown sequence in its fixed order (deactivate, close, release device,
signal downstream shutdown, mark not running, free both buffers), the
events before it contain no teardown action (so the sequence runs exactly
once), each teardown action occurs exactly once in the whole trace, and on
activation failure the worker sets the global cancellation flag and then
runs exactly this same sequence. -/
theorem C3_shutdown_once_fixed_order (bps : ℕ) (activate_ok : Bool)
    (reads : List ℤ) :
    (∃ p, soapysdr_input_thread bps activate_ok reads = p ++ shutdown_sequence ∧
       ∀ e ∈ p, e ∉ shutdown_sequence) ∧
    (∀ e ∈ shutdown_sequence,
       (soapysdr_input_thread bps activate_ok reads).count e = 1) ∧
    (activate_ok = false →
       soapysdr_input_thread bps activate_ok reads =
         [TEvent.allocInbuf, TEvent.allocOutbuf, TEvent.activateStream,
          TEvent.setDoExit] ++ shutdown_sequence) := by
  have hdecomp : ∃ p, soapysdr_input_thread bps activate_ok reads =
      p ++ shutdown_sequence ∧ ∀ e ∈ p, e ∉ shutdown_sequence := by
    rcases activate_ok with _ | _
    · refine ⟨[TEvent.allocInbuf, TEvent.allocOutbuf, TEvent.activateStream,
          TEvent.setDoExit], ?_, ?_⟩
      · simp [soapysdr_input_thread]
      · intro e he
        simp only [List.mem_cons, List.not_mem_nil, or_false] at he
        rcases he with rfl | rfl | rfl | rfl <;> simp [shutdown_sequence]
    · refine ⟨TEvent.allocInbuf :: TEvent.allocOutbuf :: TEvent.activateStream ::
          TEvent.settle :: capture_loop bps reads, ?_, ?_⟩
      · simp [soapysdr_input_thread]
      · intro e he
        simp only [List.mem_cons] at he
        rcases he with rfl | rfl | rfl | rfl | he
        · simp [shutdown_sequence]
        · simp [shutdown_sequence]
        · simp [shutdown_sequence]
        · simp [shutdown_sequence]
        · exact capture_loop_disjoint_shutdown bps reads e he
  refine ⟨hdecomp, ?_, ?_⟩
  · intro e he
    obtain ⟨p, hp, hdisj⟩ := hdecomp
    rw [hp, List.count_append]
    have hzero : p.count e = 0 := by
      rw [List.count_eq_zero]
      intro hmem
      exact hdisj e hmem he
    rw [hzero]
    have hone : shutdown_sequence.count e = 1 := by
      fin_cases he <;> decide
    rw [hone]
  · intro h
    subst h
    simp [soapysdr_input_thread]

theorem C3_shutdown_once_fixed_order_witness :
    soapysdr_input_thread 4 false [] =
      [TEvent.allocInbuf, TEvent.allocOutbuf, TEvent.activateStream,
       TEvent.setDoExit] ++ shutdown_sequence ∧
    (soapysdr_input_thread 4 false []).count TEvent.deactivateStream = 1 ∧
    (soapysdr_input_thread 4 false []).count TEvent.freeOutbuf = 1 :=
  ⟨(C3_shutdown_once_fixed_order 4 false []).2.2 rfl,
   (C3_shutdown_once_fixed_order 4 false []).2.1 TEvent.deactivateStream (by decide),
   (C3_shutdown_once_fixed_order 4 false []).2.1 TEvent.freeOutbuf (by decide)⟩

/-- The sample counts pushed into the producer channel, in trace order. -/
def produced_counts (evs : List TEvent) : List ℕ :=
  match evs with
  | [] => []
  | e :: rest =>
    match e with
    | TEvent.produce n => n :: produced_counts rest
    | _ => produced_counts rest

/-- The byte counts handed to the sample converter, in trace order. -/
def converted_bytes (evs : List TEvent) : List ℕ :=
  match evs with
  | [] => []
  | e :: rest =>
    match e with
    | TEvent.convert n => n :: converted_bytes rest
    | _ => converted_bytes rest

lemma produced_counts_append (xs ys : List TEvent) :
    produced_counts (xs ++ ys) = produced_counts xs ++ produced_counts ys := by
  induction xs with
  | nil => simp [produced_counts]
  | cons e rest ih => cases e <;> simp [produced_counts, ih]

lemma converted_bytes_append (xs ys : List TEvent) :
    converted_bytes (xs ++ ys) = converted_bytes xs ++ converted_bytes ys := by
  induction xs with
  | nil => simp [converted_bytes]
  | cons e rest ih => cases e <;> simp [converted_bytes, ih]

/-- C6: a capture-loop iteration whose read returns a negative code
contributes exactly the read and the error log to the trace — no conversion
and no push — and the iterations after it still run (the loop is not
terminated); consequently the pushed sample counts are exactly those of the
trace without the failed iteration. -/
theorem C6_negative_read_continues (bps : ℕ) (before after : List ℤ) (r : ℤ)
    (h : r < 0) :
    capture_loop bps (before ++ r :: after) =
      capture_loop bps before ++
        ([TEvent.readStream, TEvent.logReadError r] ++ capture_loop bps after) ∧
    produced_counts (capture_loop bps (before ++ r :: after)) =
      produced_counts (capture_loop bps (before ++ after)) := by
  have hmid : capture_loop bps (r :: after) =
      [TEvent.readStream, TEvent.logReadError r] ++ capture_loop bps after := by
    simp [capture_loop, h]
  constructor
  · rw [capture_loop_append, hmid]
  · rw [capture_loop_append, hmid, capture_loop_append,
        produced_counts_append, produced_counts_append,
        produced_counts_append]
    simp [produced_counts]

theorem C6_negative_read_continues_witness :
    ((-1 : ℤ) < 0) ∧
    capture_loop 4 [3, -1, 2] =
      capture_loop 4 [3] ++
        ([TEvent.readStream, TEvent.logReadError (-1)] ++ capture_loop 4 [2]) :=
  ⟨by decide, (C6_negative_read_continues 4 [3] [2] (-1) (by decide)).1⟩

/-- C7: over a full worker run, the sample counts pushed downstream are
exactly the nonnegative read results in read order (a zero read pushes
zero samples), and the byte counts handed to the converter are exactly
those counts multiplied by the bytes-per-sample size. -/
theorem C7_read_convert_produce (bps : ℕ) (reads : List ℤ) :
    produced_counts (soapysdr_input_thread bps true reads) =
      (reads.filter (fun r => decide (0 ≤ r))).map Int.toNat ∧
    converted_bytes (soapysdr_input_thread bps true reads) =
      (reads.filter (fun r => decide (0 ≤ r))).map (fun r => r.toNat * bps) := by
  have hshut1 : produced_counts shutdown_sequence = [] := by decide
  have hshut2 : converted_bytes shutdown_sequence = [] := by decide
  constructor
  · show produced_counts (TEvent.allocInbuf :: TEvent.allocOutbuf ::
        TEvent.activateStream :: (TEvent.settle ::
          (capture_loop bps reads ++ shutdown_sequence))) = _
    simp only [produced_counts, produced_counts_append, hshut1, List.append_nil]
    induction reads with
    | nil => simp [capture_loop, produced_counts]
    | cons r rest ih =>
      by_cases hr : r < 0
      · have hge : ¬ (0 ≤ r) := by omega
        simp [capture_loop, hr, produced_counts, hge, ih]
      · have hge : 0 ≤ r := by omega
        simp [capture_loop, hr, produced_counts, hge, ih]
  · show converted_bytes (TEvent.allocInbuf :: TEvent.allocOutbuf ::
        TEvent.activateStream :: (TEvent.settle ::
          (capture_loop bps reads ++ shutdown_sequence))) = _
    simp only [converted_bytes, converted_bytes_append, hshut2, List.append_nil]
    induction reads with
    | nil => simp [capture_loop, converted_bytes]
    | cons r rest ih =>
      by_cases hr : r < 0
      · have hge : ¬ (0 ≤ r) := by omega
        simp [capture_loop, hr, converted_bytes, hge, ih]
      · have hge : 0 ≤ r := by omega
        simp [capture_loop, hr, converted_bytes, hge, ih]

/-- Modelled from the spec: the sentinel "auto" value of the scalar gain
option (`AUTO_GAIN`, defined in the configuration layer outside the
embedded sources; only its use as a sentinel compared against `cfg->gain`
matters here). -/
def AUTO_GAIN : ℚ := -100

/-- The fields of `struct input_cfg` read by `soapysdr_input_init`.
Strings that are optional pointers in C become `Option String`. -/
structure input_cfg where
  sample_rate : ℚ
  centerfreq : ℚ
  freq_offset : ℚ
  correction : ℚ
  gain_elements : Option String
  gain : ℚ
  antenna : Option String
  device_settings : Option String

/-- The behavior of the SoapySDR device and its transport during
initialization: whether each device call succeeds, the capability
queries, the read-back getters, and the negotiation-relevant data
(inherited from `SoapyDevice`).  `setGainElement_ok` and `writeSetting_ok`
record whether those calls would report failure — the source discards
their return values. -/
structure DeviceBehavior extends SoapyDevice where
  make_ok : Bool
  setSampleRate_ok : Bool
  setFrequency_ok : Bool
  setFrequencyCorrection_ok : Bool
  hasDCOffsetMode : Bool
  setDCOffsetMode_ok : Bool
  setGainElement_ok : String → Bool
  getGainElement : String → ℚ
  setGain_ok : Bool
  hasGainMode : Bool
  setGainMode_ok : Bool
  setAntenna_ok : Bool
  getAntenna : String
  writeSetting_ok : String → Bool
  readSetting : String → String
  setupStream_ok : Bool
  getStreamMTU : ℕ

/-- Which `return -1` of `soapysdr_input_init` was taken — one constructor
per distinct failure diagnostic printed by the source. -/
inductive InitError where
  | openFailed
  | sampleRateFailed
  | frequencyFailed
  | correctionFailed
  | dcOffsetFailed
  | gainParseFailed
  | setGainFailed
  | noAutoGain
  | setGainModeFailed
  | antennaFailed
  | settingsParseFailed
  | noSampleFormat
  | setupStreamFailed
deriving DecidableEq, Repr

/-- The mutable fields `soapysdr_input_init` can write: `cfg->sfmt`,
`input->full_scale`, `input->bytes_per_sample`,
`input->block.producer.max_tu`, and the backend's `sdr` / `stream`
pointers (modelled as assigned-flags; they are NULL after `create`'s
zeroing allocation). -/
structure InitState where
  sfmt : sample_format
  full_scale : ℚ
  bytes_per_sample : ℕ
  max_tu : ℕ
  sdr_assigned : Bool
  stream_assigned : Bool
deriving DecidableEq, Repr

/-- The zeroed state produced by `soapysdr_input_create` (`NEW` calloc). -/
def initial_input_state : InitState :=
  { sfmt := SFMT_UNDEF, full_scale := 0, bytes_per_sample := 0, max_tu := 0,
    sdr_assigned := false, stream_assigned := false }

/-- The per-element gain loop of `soapysdr_input_init` (lines 127–132):
each parsed pair produces one `setGainElement` call (return value
discarded) and one `getGainElement` read-back for the log line. -/
def gain_element_events (pairs : List (String × String)) : List Event :=
  match pairs with
  | [] => []
  | (k, v) :: rest =>
    Event.setGainElement k v :: Event.getGainElement k :: gain_element_events rest

/-- The vendor-settings loop of `soapysdr_input_init` (lines 168–174):
each parsed pair produces one `writeSetting` call (return value discarded)
and one `readSetting` read-back for the verification log line. -/
def device_setting_events (pairs : List (String × String)) : List Event :=
  match pairs with
  | [] => []
  | (k, v) :: rest =>
    Event.writeSetting k v :: Event.readSetting k :: device_setting_events rest

/-- `soapysdr_input_init` (lines 85–204) as a function of the helper
environment, the kwargs parser `kw` (`SoapySDRKwargs_fromString`), the
device behavior and the configuration.  Returns which failure return was
taken (`none` for the final `return 0`), the final mutable state, and the
trace of device calls in program order.  Every C early `return -1`
corresponds to one error constructor. -/
def soapysdr_input_init (env : FormatEnv) (kw : String → List (String × String))
    (b : DeviceBehavior) (cfg : input_cfg) (st : InitState) :
    Option InitError × InitState × List Event :=
  let ev0 : List Event := [Event.makeDevice]
  if ¬ b.make_ok then (some InitError.openFailed, st, ev0) else
  let ev1 := ev0 ++ [Event.setSampleRate cfg.sample_rate]
  if ¬ b.setSampleRate_ok then (some InitError.sampleRateFailed, st, ev1) else
  let ev2 := ev1 ++ [Event.setFrequency (cfg.centerfreq + cfg.freq_offset)]
  if ¬ b.setFrequency_ok then (some InitError.frequencyFailed, st, ev2) else
  let ev3 := ev2 ++ [Event.setFrequencyCorrection cfg.correction]
  if ¬ b.setFrequencyCorrection_ok then (some InitError.correctionFailed, st, ev3) else
  let ev4 := ev3 ++ (if b.hasDCOffsetMode then [Event.setDCOffsetMode] else [])
  if b.hasDCOffsetMode ∧ ¬ b.setDCOffsetMode_ok then (some InitError.dcOffsetFailed, st, ev4) else
  let gain_step : Option InitError × List Event :=
    match cfg.gain_elements with
    | some s =>
      let gains := kw s
      if gains.length < 1 then (some InitError.gainParseFailed, ev4)
      else (none, ev4 ++ gain_element_events gains)
    | none =>
      if cfg.gain ≠ AUTO_GAIN then
        (if b.setGain_ok then none else some InitError.setGainFailed,
         ev4 ++ [Event.setGain cfg.gain])
      else if ¬ b.hasGainMode then (some InitError.noAutoGain, ev4)
      else (if b.setGainMode_ok then none else some InitError.setGainModeFailed,
            ev4 ++ [Event.setGainMode])
  match gain_step with
  | (some e, ev) => (some e, st, ev)
  | (none, ev5) =>
    let antenna_step : Option InitError × List Event :=
      match cfg.antenna with
      | some a =>
        (if b.setAntenna_ok then none else some InitError.antennaFailed,
         ev5 ++ [Event.setAntenna a])
      | none => (none, ev5)
    match antenna_step with
    | (some e, ev) => (some e, st, ev)
    | (none, ev6) =>
      let ev7 := ev6 ++ [Event.getAntenna]
      let settings_step : Option InitError × List Event :=
        match cfg.device_settings with
        | some s =>
          let pairs := kw s
          if pairs.length < 1 then (some InitError.settingsParseFailed, ev7)
          else (none, ev7 ++ device_setting_events pairs)
        | none => (none, ev7)
      match settings_step with
      | (some e, ev) => (some e, st, ev)
      | (none, ev8) =>
        let chosen_trace := soapysdr_choose_sample_format env b.toSoapyDevice
        let chosen := chosen_trace.1
        let ev9 := ev8 ++ chosen_trace.2
        if chosen.sfmt = SFMT_UNDEF then (some InitError.noSampleFormat, st, ev9) else
        let st1 : InitState :=
          { st with sfmt := chosen.sfmt, full_scale := chosen.full_scale,
                    bytes_per_sample := chosen.sample_size }
        let ev10 := ev9 ++ [Event.setupStream]
        if ¬ b.setupStream_ok then (some InitError.setupStreamFailed, st1, ev10) else
        (none,
         { st1 with max_tu := b.getStreamMTU,
                    sdr_assigned := true, stream_assigned := true },
         ev10)

/-- C10: on every failure return of `soapysdr_input_init` the backend's
device and stream pointer fields are left untouched (so, starting from the
zeroed state `create` produces, they are still null), and they are assigned
exactly on the success return, after configuration, negotiation and stream
setup have all succeeded. -/
theorem C10_handles_only_on_success (env : FormatEnv)
    (kw : String → List (String × String)) (b : DeviceBehavior)
    (cfg : input_cfg) (st : InitState) :
    ((soapysdr_input_init env kw b cfg st).1 ≠ none →
      (soapysdr_input_init env kw b cfg st).2.1.sdr_assigned = st.sdr_assigned ∧
      (soapysdr_input_init env kw b cfg st).2.1.stream_assigned = st.stream_assigned) ∧
    ((soapysdr_input_init env kw b cfg st).1 = none →
      (soapysdr_input_init env kw b cfg st).2.1.sdr_assigned = true ∧
      (soapysdr_input_init env kw b cfg st).2.1.stream_assigned = true) := by
  unfold soapysdr_input_init
  dsimp only
  repeat' split
  all_goals simp_all

/-- The gain-element calls of the initialization trace (the per-element
setter and its read-back). -/
def is_gain_element_event (e : Event) : Bool :=
  match e with
  | Event.setGainElement _ _ => true
  | Event.getGainElement _ => true
  | _ => false

/-- All configuration steps before the gain block succeed: device open,
sample rate, frequency, frequency correction, and (when the capability is
present) DC-offset mode. -/
def config_steps_ok (b : DeviceBehavior) : Prop :=
  b.make_ok = true ∧ b.setSampleRate_ok = true ∧ b.setFrequency_ok = true ∧
  b.setFrequencyCorrection_ok = true ∧
  (b.hasDCOffsetMode = true → b.setDCOffsetMode_ok = true)

instance (b : DeviceBehavior) : Decidable (config_steps_ok b) := by
  unfold config_steps_ok; infer_instance

lemma gain_element_events_filter (ps : List (String × String)) :
    (gain_element_events ps).filter is_gain_element_event =
      gain_element_events ps := by
  induction ps with
  | nil => simp [gain_element_events]
  | cons p rest ih =>
    rcases p with ⟨k, v⟩
    simp [gain_element_events, is_gain_element_event, List.filter, ih]

lemma device_setting_events_filter (ps : List (String × String)) :
    (device_setting_events ps).filter is_gain_element_event = [] := by
  induction ps with
  | nil => simp [device_setting_events]
  | cons p rest ih =>
    rcases p with ⟨k, v⟩
    simp [device_setting_events, is_gain_element_event, List.filter, ih]

lemma choose_events_cases (env : FormatEnv) (sdr : SoapyDevice) :
    (soapysdr_choose_sample_format env sdr).2 = [Event.getNativeStreamFormat] ∨
    (soapysdr_choose_sample_format env sdr).2 =
      [Event.getNativeStreamFormat, Event.getStreamFormats] := by
  unfold soapysdr_choose_sample_format
  rcases native_format_check env sdr with ⟨r, acc⟩
  rcases acc with _ | _
  · rcases sdr.streamFormats with _ | ⟨_ | ⟨f0, rest⟩⟩ <;> simp
  · simp

lemma choose_events_filter (env : FormatEnv) (sdr : SoapyDevice) :
    ((soapysdr_choose_sample_format env sdr).2).filter is_gain_element_event = [] := by
  rcases choose_events_cases env sdr with h | h <;>
    rw [h] <;> simp [is_gain_element_event, List.filter]

/-- C4: gain precedence during initialization.  (a) With a per-element gain
map supplied, the whole result — error, state and trace — is independent of
the scalar gain and of the scalar/auto gain capabilities, i.e. the scalar
gain is ignored; (b) with the map supplied, reachable and non-empty, the
gain calls issued are exactly the per-element setter/read-back pairs of the
parsed map, in the order given; (c) else a scalar gain other than the
auto sentinel is set directly and its setter failure is fatal with the
dedicated error; (d) else auto-gain support is required — its absence is
fatal; (e) and a failing auto-gain enable is fatal. -/
theorem C4_gain_precedence (env : FormatEnv)
    (kw : String → List (String × String)) (b : DeviceBehavior)
    (cfg : input_cfg) (st : InitState) :
    (∀ s g x y z, cfg.gain_elements = some s →
       soapysdr_input_init env kw
           { b with setGain_ok := x, hasGainMode := y, setGainMode_ok := z }
           { cfg with gain := g } st =
         soapysdr_input_init env kw b cfg st) ∧
    (∀ s, cfg.gain_elements = some s → config_steps_ok b → 1 ≤ (kw s).length →
       ((soapysdr_input_init env kw b cfg st).2.2).filter is_gain_element_event =
         gain_element_events (kw s)) ∧
    (cfg.gain_elements = none → cfg.gain ≠ AUTO_GAIN → config_steps_ok b →
       b.setGain_ok = false →
       (soapysdr_input_init env kw b cfg st).1 = some InitError.setGainFailed) ∧
    (cfg.gain_elements = none → cfg.gain = AUTO_GAIN → config_steps_ok b →
       b.hasGainMode = false →
       (soapysdr_input_init env kw b cfg st).1 = some InitError.noAutoGain) ∧
    (cfg.gain_elements = none → cfg.gain = AUTO_GAIN → config_steps_ok b →
       b.hasGainMode = true → b.setGainMode_ok = false →
       (soapysdr_input_init env kw b cfg st).1 = some InitError.setGainModeFailed) := by
  have hdcFalse : ∀ h5 : (b.hasDCOffsetMode = true → b.setDCOffsetMode_ok = true),
      (b.hasDCOffsetMode = true ∧ ¬ b.setDCOffsetMode_ok = true) = False := by
    intro h5
    by_cases hdc : b.hasDCOffsetMode = true
    · simp [hdc, h5 hdc]
    · simp [hdc]
  refine ⟨?_, ?_, ?_, ?_, ?_⟩
  · intro s g x y z hs
    unfold soapysdr_input_init
    dsimp only
    simp only [hs]
  · intro s hs hok hlen
    obtain ⟨h1, h2, h3, h4, h5⟩ := hok
    have hlen' : ¬ ((kw s).length < 1) := by omega
    unfold soapysdr_input_init
    dsimp only
    simp only [hs, h1, h2, h3, h4, not_true_eq_false, if_false,
      hdcFalse h5, if_neg hlen']
    rcases ha : cfg.antenna with _ | a <;> rcases hd : cfg.device_settings with _ | ds <;>
      simp only [ha, hd]
    all_goals repeat' split
    all_goals simp_all [List.filter_append, gain_element_events_filter,
      device_setting_events_filter, choose_events_filter,
      is_gain_element_event, List.filter, ite_eq_iff, Prod.mk.injEq]
    all_goals casesm* _ ∧ _
    all_goals subst_vars
    all_goals simp_all [List.filter_append, gain_element_events_filter,
      device_setting_events_filter, choose_events_filter,
      is_gain_element_event, List.filter]
  · intro hs hg hok hfail
    obtain ⟨h1, h2, h3, h4, h5⟩ := hok
    unfold soapysdr_input_init
    dsimp only
    simp only [hs, h1, h2, h3, h4, not_true_eq_false, if_false, hdcFalse h5]
    simp only [ne_eq, hg, not_false_eq_true, if_true, hfail]
    simp
  · intro hs hg hok hfail
    obtain ⟨h1, h2, h3, h4, h5⟩ := hok
    unfold soapysdr_input_init
    dsimp only
    simp only [hs, h1, h2, h3, h4, not_true_eq_false, if_false, hdcFalse h5]
    simp [hg, hfail]
  · intro hs hg hok hgm hfail
    obtain ⟨h1, h2, h3, h4, h5⟩ := hok
    unfold soapysdr_input_init
    dsimp only
    simp only [hs, h1, h2, h3, h4, not_true_eq_false, if_false, hdcFalse h5]
    simp [hg, hgm, hfail]

/-- A concrete kwargs parser: recognizes one two-element gain map string
and parses everything else to zero pairs. -/
def test_kw : String → List (String × String) :=
  fun s => if s = "LNA=20,VGA=10" then [("LNA", "20"), ("VGA", "10")] else []

/-- A device on which every initialization call succeeds. -/
def good_behavior : DeviceBehavior where
  toSoapyDevice := native_ok_device
  make_ok := true
  setSampleRate_ok := true
  setFrequency_ok := true
  setFrequencyCorrection_ok := true
  hasDCOffsetMode := true
  setDCOffsetMode_ok := true
  setGainElement_ok := fun _ => true
  getGainElement := fun _ => 20
  setGain_ok := true
  hasGainMode := true
  setGainMode_ok := true
  setAntenna_ok := true
  getAntenna := "RX"
  writeSetting_ok := fun _ => true
  readSetting := fun _ => "true"
  setupStream_ok := true
  getStreamMTU := 65536

/-- `good_behavior`, except that opening the device fails. -/
def failing_behavior : DeviceBehavior :=
  { good_behavior with make_ok := false }

/-- A configuration requesting auto gain, no antenna, no vendor settings. -/
def auto_gain_cfg : input_cfg where
  sample_rate := 2100000
  centerfreq := 10000000
  freq_offset := 0
  correction := 1
  gain_elements := none
  gain := AUTO_GAIN
  antenna := none
  device_settings := none

/-- `auto_gain_cfg` with a per-element gain map and a scalar gain both
supplied. -/
def gain_map_cfg : input_cfg :=
  { auto_gain_cfg with gain_elements := some "LNA=20,VGA=10", gain := 30 }

theorem C10_handles_only_on_success_witness :
    ((soapysdr_input_init test_env test_kw good_behavior auto_gain_cfg
        initial_input_state).2.1.sdr_assigned = true ∧
     (soapysdr_input_init test_env test_kw good_behavior auto_gain_cfg
        initial_input_state).2.1.stream_assigned = true) ∧
    ((soapysdr_input_init test_env test_kw failing_behavior auto_gain_cfg
        initial_input_state).2.1.sdr_assigned = false ∧
     (soapysdr_input_init test_env test_kw failing_behavior auto_gain_cfg
        initial_input_state).2.1.stream_assigned = false) :=
  ⟨(C10_handles_only_on_success test_env test_kw good_behavior auto_gain_cfg
      initial_input_state).2 (by decide),
   (C10_handles_only_on_success test_env test_kw failing_behavior auto_gain_cfg
      initial_input_state).1 (by decide)⟩

theorem C4_gain_precedence_witness :
    gain_map_cfg.gain_elements = some "LNA=20,VGA=10" ∧
    soapysdr_input_init test_env test_kw
        { good_behavior with setGain_ok := false, hasGainMode := false,
                             setGainMode_ok := false }
        { gain_map_cfg with gain := 30 } initial_input_state =
      soapysdr_input_init test_env test_kw good_behavior gain_map_cfg
        initial_input_state ∧
    ((soapysdr_input_init test_env test_kw good_behavior gain_map_cfg
        initial_input_state).2.2).filter is_gain_element_event =
      [Event.setGainElement "LNA" "20", Event.getGainElement "LNA",
       Event.setGainElement "VGA" "10", Event.getGainElement "VGA"] :=
  ⟨rfl,
   (C4_gain_precedence test_env test_kw good_behavior gain_map_cfg
      initial_input_state).1 "LNA=20,VGA=10" 30 false false false rfl,
   by
     rw [(C4_gain_precedence test_env test_kw good_behavior gain_map_cfg
        initial_input_state).2.1 "LNA=20,VGA=10" rfl (by decide) (by decide)]
     decide⟩

/-- `good_behavior`, except that every per-element gain setter and every
vendor-setting write reports failure — calls whose return values the
source discards. -/
def gainfail_behavior : DeviceBehavior :=
  { good_behavior with setGainElement_ok := fun _ => false,
                       writeSetting_ok := fun _ => false }

/-- C5 counterexample: a per-element gain setter call that fails is not
fatal — the call is issued (it appears in the trace), the device reports
failure for it, and initialization nevertheless returns success, because
the source discards `SoapySDRDevice_setGainElement`'s return value. -/
theorem C5_counterexample :
    gainfail_behavior.setGainElement_ok "LNA" = false ∧
    Event.setGainElement "LNA" "20" ∈
      (soapysdr_input_init test_env test_kw gainfail_behavior gain_map_cfg
        initial_input_state).2.2 ∧
    (soapysdr_input_init test_env test_kw gainfail_behavior gain_map_cfg
        initial_input_state).1 = none := by
  decide

/-- C5 (amended): every device setter call whose result the code checks is
individually fatal, aborting initialization immediately with the dedicated
error and leaving exactly the calls made so far in the trace: device open,
sample rate, frequency, frequency correction, DC-offset mode (when the
capability is present), the scalar gain setter, the auto-gain enable, and
the antenna selector.  (Per-element gain setters and vendor-setting writes
are excluded: their return values are discarded.) -/
theorem C5_checked_setter_failures (env : FormatEnv)
    (kw : String → List (String × String)) (b : DeviceBehavior)
    (cfg : input_cfg) (st : InitState) :
    (b.make_ok = false →
       soapysdr_input_init env kw b cfg st =
         (some InitError.openFailed, st, [Event.makeDevice])) ∧
    (b.make_ok = true → b.setSampleRate_ok = false →
       soapysdr_input_init env kw b cfg st =
         (some InitError.sampleRateFailed, st,
          [Event.makeDevice, Event.setSampleRate cfg.sample_rate])) ∧
    (b.make_ok = true → b.setSampleRate_ok = true → b.setFrequency_ok = false →
       soapysdr_input_init env kw b cfg st =
         (some InitError.frequencyFailed, st,
          [Event.makeDevice, Event.setSampleRate cfg.sample_rate,
           Event.setFrequency (cfg.centerfreq + cfg.freq_offset)])) ∧
    (b.make_ok = true → b.setSampleRate_ok = true → b.setFrequency_ok = true →
       b.setFrequencyCorrection_ok = false →
       soapysdr_input_init env kw b cfg st =
         (some InitError.correctionFailed, st,
          [Event.makeDevice, Event.setSampleRate cfg.sample_rate,
           Event.setFrequency (cfg.centerfreq + cfg.freq_offset),
           Event.setFrequencyCorrection cfg.correction])) ∧
    (b.make_ok = true → b.setSampleRate_ok = true → b.setFrequency_ok = true →
       b.setFrequencyCorrection_ok = true → b.hasDCOffsetMode = true →
       b.setDCOffsetMode_ok = false →
       soapysdr_input_init env kw b cfg st =
         (some InitError.dcOffsetFailed, st,
          [Event.makeDevice, Event.setSampleRate cfg.sample_rate,
           Event.setFrequency (cfg.centerfreq + cfg.freq_offset),
           Event.setFrequencyCorrection cfg.correction,
           Event.setDCOffsetMode])) ∧
    (config_steps_ok b → cfg.gain_elements = none → cfg.gain ≠ AUTO_GAIN →
       b.setGain_ok = false →
       soapysdr_input_init env kw b cfg st =
         (some InitError.setGainFailed, st,
          Event.makeDevice :: Event.setSampleRate cfg.sample_rate ::
            Event.setFrequency (cfg.centerfreq + cfg.freq_offset) ::
            Event.setFrequencyCorrection cfg.correction ::
            ((if b.hasDCOffsetMode = true then [Event.setDCOffsetMode] else []) ++
             [Event.setGain cfg.gain]))) ∧
    (config_steps_ok b → cfg.gain_elements = none → cfg.gain = AUTO_GAIN →
       b.hasGainMode = true → b.setGainMode_ok = false →
       soapysdr_input_init env kw b cfg st =
         (some InitError.setGainModeFailed, st,
          Event.makeDevice :: Event.setSampleRate cfg.sample_rate ::
            Event.setFrequency (cfg.centerfreq + cfg.freq_offset) ::
            Event.setFrequencyCorrection cfg.correction ::
            ((if b.hasDCOffsetMode = true then [Event.setDCOffsetMode] else []) ++
             [Event.setGainMode]))) ∧
    (∀ a, config_steps_ok b → cfg.gain_elements = none → cfg.gain ≠ AUTO_GAIN →
       b.setGain_ok = true → cfg.antenna = some a → b.setAntenna_ok = false →
       soapysdr_input_init env kw b cfg st =
         (some InitError.antennaFailed, st,
          Event.makeDevice :: Event.setSampleRate cfg.sample_rate ::
            Event.setFrequency (cfg.centerfreq + cfg.freq_offset) ::
            Event.setFrequencyCorrection cfg.correction ::
            ((if b.hasDCOffsetMode = true then [Event.setDCOffsetMode] else []) ++
             (Event.setGain cfg.gain :: [Event.setAntenna a])))) := by
  have hdcFalse : ∀ h5 : (b.hasDCOffsetMode = true → b.setDCOffsetMode_ok = true),
      (b.hasDCOffsetMode = true ∧ ¬ b.setDCOffsetMode_ok = true) = False := by
    intro h5
    by_cases hdc : b.hasDCOffsetMode = true
    · simp [hdc, h5 hdc]
    · simp [hdc]
  refine ⟨?_, ?_, ?_, ?_, ?_, ?_, ?_, ?_⟩
  · intro h1
    unfold soapysdr_input_init
    simp [h1]
  · intro h1 h2
    unfold soapysdr_input_init
    simp [h1, h2]
  · intro h1 h2 h3
    unfold soapysdr_input_init
    simp [h1, h2, h3]
  · intro h1 h2 h3 h4
    unfold soapysdr_input_init
    simp [h1, h2, h3, h4]
  · intro h1 h2 h3 h4 hdc h6
    unfold soapysdr_input_init
    simp [h1, h2, h3, h4, hdc, h6]
  · intro hok hge hgain hfail
    obtain ⟨h1, h2, h3, h4, h5⟩ := hok
    unfold soapysdr_input_init
    dsimp only
    simp only [h1, h2, h3, h4, not_true_eq_false, if_false, hdcFalse h5, hge]
    simp [hgain, hfail]
  · intro hok hge hgain hgm hfail
    obtain ⟨h1, h2, h3, h4, h5⟩ := hok
    unfold soapysdr_input_init
    dsimp only
    simp only [h1, h2, h3, h4, not_true_eq_false, if_false, hdcFalse h5, hge]
    simp [hgain, hgm, hfail]
  · intro a hok hge hgain hsg ha hfail
    obtain ⟨h1, h2, h3, h4, h5⟩ := hok
    unfold soapysdr_input_init
    dsimp only
    simp only [h1, h2, h3, h4, not_true_eq_false, if_false, hdcFalse h5, hge, ha]
    simp [hgain, hsg, hfail]

theorem C5_checked_setter_failures_witness :
    soapysdr_input_init test_env test_kw
        { good_behavior with setSampleRate_ok := false } auto_gain_cfg
        initial_input_state =
      (some InitError.sampleRateFailed, initial_input_state,
       [Event.makeDevice, Event.setSampleRate 2100000]) :=
  (C5_checked_setter_failures test_env test_kw
      { good_behavior with setSampleRate_ok := false } auto_gain_cfg
      initial_input_state).2.1 rfl rfl

set_option maxHeartbeats 1600000 in
/-- C9: a per-element gain string or vendor-settings string that parses to
zero pairs always prevents initialization from succeeding, whatever the
device does; and whenever control reaches the corresponding parse (the
earlier steps succeed), the failure is precisely the dedicated
configuration-error return, independent of all device call results. -/
theorem C9_zero_pair_rejection (env : FormatEnv)
    (kw : String → List (String × String)) (b : DeviceBehavior)
    (cfg : input_cfg) (st : InitState) :
    (∀ s, cfg.gain_elements = some s → kw s = [] →
       (soapysdr_input_init env kw b cfg st).1 ≠ none) ∧
    (∀ s, cfg.device_settings = some s → kw s = [] →
       (soapysdr_input_init env kw b cfg st).1 ≠ none) ∧
    (∀ s, cfg.gain_elements = some s → kw s = [] → config_steps_ok b →
       (soapysdr_input_init env kw b cfg st).1 =
         some InitError.gainParseFailed) ∧
    (∀ s, cfg.device_settings = some s → kw s = [] → config_steps_ok b →
       cfg.gain_elements = none → cfg.gain ≠ AUTO_GAIN → b.setGain_ok = true →
       cfg.antenna = none →
       (soapysdr_input_init env kw b cfg st).1 =
         some InitError.settingsParseFailed) := by
  have hdcFalse : ∀ h5 : (b.hasDCOffsetMode = true → b.setDCOffsetMode_ok = true),
      (b.hasDCOffsetMode = true ∧ ¬ b.setDCOffsetMode_ok = true) = False := by
    intro h5
    by_cases hdc : b.hasDCOffsetMode = true
    · simp [hdc, h5 hdc]
    · simp [hdc]
  refine ⟨?_, ?_, ?_, ?_⟩
  · intro s hs hkw
    unfold soapysdr_input_init
    dsimp only
    repeat' split
    all_goals simp_all [ite_eq_iff, Prod.mk.injEq]
  · intro s hd hkw
    unfold soapysdr_input_init
    dsimp only
    repeat' split
    all_goals simp_all [ite_eq_iff, Prod.mk.injEq]
  · intro s hs hkw hok
    obtain ⟨h1, h2, h3, h4, h5⟩ := hok
    unfold soapysdr_input_init
    dsimp only
    simp only [h1, h2, h3, h4, not_true_eq_false, if_false, hdcFalse h5, hs]
    simp [hkw]
  · intro s hd hkw hok hge hgain hsg ha
    obtain ⟨h1, h2, h3, h4, h5⟩ := hok
    unfold soapysdr_input_init
    dsimp only
    simp only [h1, h2, h3, h4, not_true_eq_false, if_false, hdcFalse h5,
      hge, ha, hd]
    simp [hgain, hsg, hkw]

/-- `auto_gain_cfg` with a gain map string that parses to zero pairs. -/
def zero_gain_cfg : input_cfg :=
  { auto_gain_cfg with gain_elements := some "garbage" }

/-- `auto_gain_cfg` with a scalar gain and a vendor-settings string that
parses to zero pairs. -/
def zero_settings_cfg : input_cfg :=
  { auto_gain_cfg with gain := 30, device_settings := some "garbage" }

theorem C9_zero_pair_rejection_witness :
    (soapysdr_input_init test_env test_kw good_behavior zero_gain_cfg
        initial_input_state).1 = some InitError.gainParseFailed ∧
    (soapysdr_input_init test_env test_kw good_behavior zero_settings_cfg
        initial_input_state).1 = some InitError.settingsParseFailed :=
  ⟨(C9_zero_pair_rejection test_env test_kw good_behavior zero_gain_cfg
      initial_input_state).2.2.1 "garbage" rfl rfl (by decide),
   (C9_zero_pair_rejection test_env test_kw good_behavior zero_settings_cfg
      initial_input_state).2.2.2 "garbage" rfl rfl (by decide) rfl (by decide)
      rfl rfl⟩
